import Mathlib

/-
  Verification of the request runner in src/.llms/inference/hf.py.

  The program is embedded shallowly: file-system reads, the single HTTP
  POST, file writes and console prints are recorded as events in a trace,
  and the outside world (environment variables, file contents, the
  response returned by the network, writability of the output path) is a
  record of functions that the embedded run consults.  Python exceptions
  that the program does not catch are modelled with Except: a run either
  terminates normally, returning its trace, or stops at an uncaught
  exception.
-/

namespace HF

/-- A JSON value, as produced by parsing an HTTP response body.
Numbers are modelled as integers, which suffices for every claim. -/
inductive Json where
  | null : Json
  | bool (b : Bool) : Json
  | num (n : Int) : Json
  | str (s : String) : Json
  | arr (xs : List Json) : Json
  | obj (fields : List (String × Json)) : Json

/-- Python truthiness of a JSON-decoded value, as used by
the conditions in the source. -/
def Json.truthy : Json → Bool
  | .null => false
  | .bool b => b
  | .num n => n != 0
  | .str s => s != ""
  | .arr xs => !xs.isEmpty
  | .obj fs => !fs.isEmpty

/-- Textual rendering of a JSON value, standing in for the string
produced when Python prints the parsed response object. -/
def Json.render : Json → String
  | .null => "None"
  | .bool true => "True"
  | .bool false => "False"
  | .num n => toString n
  | .str s => "\"" ++ s ++ "\""
  | .arr xs => "[" ++ String.intercalate ", " (xs.attach.map (fun x => Json.render x.1)) ++ "]"
  | .obj fs => "\x7b" ++ String.intercalate ", "
      (fs.attach.map (fun p => "\"" ++ p.1.1 ++ "\": " ++ Json.render p.1.2)) ++ "\x7d"
decreasing_by
  · have h := List.sizeOf_lt_of_mem x.2
    simp only [Json.arr.sizeOf_spec]
    omega
  · obtain ⟨⟨a, b⟩, hp⟩ := p
    have h := List.sizeOf_lt_of_mem hp
    simp only [Prod.mk.sizeOf_spec] at h
    simp only [Json.obj.sizeOf_spec]
    omega

/-- Last-occurrence lookup in an association list, matching the
behaviour of a Python dict built by json.loads (later duplicate keys
overwrite earlier ones). -/
def jlookup (fs : List (String × Json)) (k : String) : Option Json :=
  match fs with
  | [] => none
  | p :: rest =>
    match jlookup rest k with
    | some v => some v
    | none => if p.1 = k then some p.2 else none

/-- Uncaught Python exceptions that can escape the program. -/
inductive PyExc where
  | keyError (key : String) : PyExc
  | unicodeDecodeError (msg : String) : PyExc
  | jsonDecodeError (body : String) : PyExc
  | indexError : PyExc
  | typeError : PyExc

/-- Python membership test `k in j` for a JSON-decoded value. -/
def pyContains (j : Json) (k : String) : Except PyExc Bool :=
  match j with
  | .obj fs => .ok (fs.any (fun p => p.1 = k))
  | .arr xs => .ok (xs.any (fun x => match x with | .str s => s = k | _ => false))
  | .str s => .ok ((s.splitOn k).length != 1)
  | _ => .error .typeError

/-- Python subscripting `j[k]` with a string key. -/
def pyGetKey (j : Json) (k : String) : Except PyExc Json :=
  match j with
  | .obj fs =>
    match jlookup fs k with
    | some v => .ok v
    | none => .error (.keyError k)
  | _ => .error .typeError

/-- Python subscripting `j[n]` with an integer index. -/
def pyGetIdx (j : Json) (n : Nat) : Except PyExc Json :=
  match j with
  | .arr xs =>
    match xs.get? n with
    | some v => .ok v
    | none => .error .indexError
  | .str s =>
    match s.toList.get? n with
    | some c => .ok (.str (String.singleton c))
    | none => .error .indexError
  | .obj _ => .error (.keyError (toString n))
  | _ => .error .typeError

/-- Rendering of an optional string in a Python f-string:
None renders as the four characters None. -/
def pyStrOpt : Option String → String
  | none => "None"
  | some s => s

/-- Python truthiness of an optional string, as in the
`if not prompt_content` guard. -/
def pyTruthyOptStr : Option String → Bool
  | none => false
  | some s => s != ""

/-- The string Python prints for an extracted response value:
a str prints as itself, other values via their rendering. -/
def pyStrJson : Json → String
  | .str s => s
  | j => Json.render j

/-- Observable side effects of a run, in order of occurrence. -/
inductive Event where
  | readAttempt (path : String) : Event
  | printed (msg : String) : Event
  | post (url : String) (payload : Json) : Event
  | wrote (path : String) (content : String) : Event

/-- Outcome of attempting to read a file as UTF-8 text. -/
inductive ReadResult where
  | ok (content : String) : ReadResult
  | ioError (msg : String) : ReadResult
  | decodeError (msg : String) : ReadResult

/-- Outcome of the HTTP POST: the server answers with a body that
either parses as JSON or does not. -/
inductive NetResult where
  | jsonBody (body : Json) : NetResult
  | nonJsonBody (raw : String) : NetResult

/-- The outside world a run interacts with: environment variables, the
outcome of reading each path, the network response to each payload, and
whether opening-and-writing each output path succeeds (some msg is an
IOError with that message). -/
structure World where
  env : String → Option String
  files : String → ReadResult
  net : Json → NetResult
  writeRes : String → Option String

/-- The fixed inference endpoint, API_URL in the source. -/
def API_URL : String := "https://router.huggingface.co/v1/chat/completions"

/-- Embedding of read_file_content: returns the file contents, or prints
a diagnostic and returns None on IOError; a UnicodeDecodeError is not an
IOError and escapes the except clause. -/
def read_file_content (w : World) (file_path : String) :
    List Event × Except PyExc (Option String) :=
  match w.files file_path with
  | .ok c => ([.readAttempt file_path], .ok (some c))
  | .ioError e =>
      ([.readAttempt file_path,
        .printed ("Error reading file " ++ file_path ++ ": " ++ e)], .ok none)
  | .decodeError e => ([.readAttempt file_path], .error (.unicodeDecodeError e))

/-- Embedding of query: one POST to API_URL, then response.json(), which
raises a JSONDecodeError when the body is not JSON. -/
def query (w : World) (payload : Json) : List Event × Except PyExc Json :=
  match w.net payload with
  | .jsonBody j => ([.post API_URL payload], .ok j)
  | .nonJsonBody raw => ([.post API_URL payload], .error (.jsonDecodeError raw))

/-- Lines 33-40 of process_api_call: messages starts empty; when an
input file is given it is read and a single user message is built from
the f-string, whatever the read returned. -/
def build_messages (w : World) (prompt_content : String) (input_file : Option String) :
    List Event × Except PyExc (List Json) :=
  match input_file with
  | none => ([], .ok [])
  | some inp =>
    match read_file_content w inp with
    | (t, .error e) => (t, .error e)
    | (t, .ok input_content) =>
      (t, .ok [Json.obj [("role", Json.str "user"),
        ("content", Json.str (prompt_content ++ "\n" ++ pyStrOpt input_content))]])

/-- The guard on line 52: choices in response and response[choices],
with Python short-circuit evaluation and truthiness. -/
def guardChoices (response : Json) : Except PyExc Bool :=
  match pyContains response "choices" with
  | .error e => .error e
  | .ok false => .ok false
  | .ok true =>
    match pyGetKey response "choices" with
    | .error e => .error e
    | .ok v => .ok v.truthy

/-- Line 53: response[choices][0][message][content]. -/
def extractContent (response : Json) : Except PyExc Json :=
  match pyGetKey response "choices" with
  | .error e => .error e
  | .ok cs =>
    match pyGetIdx cs 0 with
    | .error e => .error e
    | .ok c0 =>
      match pyGetKey c0 "message" with
      | .error e => .error e
      | .ok m => pyGetKey m "content"

/-- Lines 52-68 of process_api_call: extract the first choice, write it
to the output file when one was given (an IOError is caught and
reported), otherwise print it under the heading; with no usable choices,
print the raw response. -/
def handle_response (w : World) (output_file : Option String) (response : Json) :
    List Event × Except PyExc Unit :=
  match guardChoices response with
  | .error e => ([], .error e)
  | .ok false =>
    ([.printed ("Error or empty response from API: " ++ Json.render response)], .ok ())
  | .ok true =>
    match extractContent response with
    | .error e => ([], .error e)
    | .ok v =>
      match output_file with
      | some out_file =>
        match w.writeRes out_file with
        | some e => ([.printed ("Error writing to file " ++ out_file ++ ": " ++ e)], .ok ())
        | none =>
          match v with
          | .str s => ([.wrote out_file s, .printed ("API response saved to " ++ out_file)], .ok ())
          | _ => ([], .error .typeError)
      | none => ([.printed "API Response:", .printed (pyStrJson v)], .ok ())

/-- Embedding of process_api_call, composed from the stage functions
above exactly as the source lines compose. -/
def process_api_call (w : World) (model : String) (prompt_file : String)
    (input_file : Option String) (output_file : Option String) :
    List Event × Except PyExc Unit :=
  match read_file_content w prompt_file with
  | (t1, .error e) => (t1, .error e)
  | (t1, .ok prompt_content) =>
    if pyTruthyOptStr prompt_content = false then (t1, .ok ())
    else
      match build_messages w (pyStrOpt prompt_content) input_file with
      | (t2, .error e) => (t1 ++ t2, .error e)
      | (t2, .ok messages) =>
        let payload := Json.obj [("messages", Json.arr messages), ("model", Json.str model)]
        match query w payload with
        | (t3, .error e) => (t1 ++ t2 ++ t3, .error e)
        | (t3, .ok response) =>
          (t1 ++ t2 ++ t3 ++ (handle_response w output_file response).1,
           (handle_response w output_file response).2)

/-- A whole run of the script: module import first evaluates the headers
dict, reading HF_TOKEN from the environment; a missing variable raises
KeyError before anything else happens.  Then the main block calls
process_api_call. -/
def mainRun (w : World) (model : String) (prompt_file : String)
    (input_file : Option String) (output_file : Option String) :
    List Event × Except PyExc Unit :=
  match w.env "HF_TOKEN" with
  | none => ([], .error (.keyError "HF_TOKEN"))
  | some _ => process_api_call w model prompt_file input_file output_file

/-- The POST requests occurring in a trace, with their URL and body. -/
def postsOf (t : List Event) : List (String × Json) :=
  t.filterMap (fun e => match e with | .post u p => some (u, p) | _ => none)

/-- The file writes occurring in a trace, with path and content. -/
def writesOf (t : List Event) : List (String × String) :=
  t.filterMap (fun e => match e with | .wrote p c => some (p, c) | _ => none)

/-- The paths whose reading a trace attempts. -/
def readsOf (t : List Event) : List String :=
  t.filterMap (fun e => match e with | .readAttempt p => some p | _ => none)

/-- The console lines printed in a trace. -/
def printedOf (t : List Event) : List String :=
  t.filterMap (fun e => match e with | .printed m => some m | _ => none)

/-! ### Concrete worlds used by witnesses and counterexamples -/

/-- A run with readable prompt and input files, a writable output path,
and a well-formed response carrying one choice. -/
def wOk : World where
  env := fun _ => some "tok"
  files := fun p =>
    if p = "p.txt" then .ok "Summarize:"
    else if p = "i.txt" then .ok "The quick brown fox."
    else .ioError "No such file or directory"
  net := fun _ => .jsonBody (Json.obj [("choices", Json.arr
    [Json.obj [("message", Json.obj [("content", Json.str "A fox runs.")])]])])
  writeRes := fun _ => none

/-- A world whose prompt file is readable but empty. -/
def wEmptyPrompt : World where
  env := fun _ => some "tok"
  files := fun _ => .ok ""
  net := fun _ => .jsonBody Json.null
  writeRes := fun _ => none

/-- A world whose input file is unreadable (permission denied). -/
def wBadInput : World where
  env := fun _ => some "tok"
  files := fun p => if p = "p.txt" then .ok "P" else .ioError "Permission denied"
  net := fun _ => .jsonBody (Json.obj [])
  writeRes := fun _ => none

/-- A world with no HF_TOKEN in the environment. -/
def wNoTok : World where
  env := fun _ => none
  files := fun _ => .ok "P"
  net := fun _ => .jsonBody Json.null
  writeRes := fun _ => none

/-- A world whose server answers with a body that is not JSON. -/
def wBadJson : World where
  env := fun _ => some "tok"
  files := fun _ => .ok "P"
  net := fun _ => .nonJsonBody "<html>503</html>"
  writeRes := fun _ => none

/-- A world whose response has no choices entry. -/
def wNoChoices : World where
  env := fun _ => some "tok"
  files := fun _ => .ok "P"
  net := fun _ => .jsonBody (Json.obj [("error", Json.str "overloaded")])
  writeRes := fun _ => none

/-- A world where writing the output file fails. -/
def wWriteFail : World where
  env := fun _ => some "tok"
  files := fun _ => .ok "P"
  net := fun _ => .jsonBody (Json.obj [("choices", Json.arr
    [Json.obj [("message", Json.obj [("content", Json.str "A fox runs.")])]])])
  writeRes := fun _ => some "Permission denied"

/-! ### Trace bookkeeping lemmas -/

@[simp]
theorem postsOf_nil : postsOf [] = [] := rfl

@[simp]
theorem postsOf_cons_read (p : String) (t : List Event) :
    postsOf (Event.readAttempt p :: t) = postsOf t := rfl

@[simp]
theorem postsOf_cons_printed (m : String) (t : List Event) :
    postsOf (Event.printed m :: t) = postsOf t := rfl

@[simp]
theorem postsOf_cons_wrote (p c : String) (t : List Event) :
    postsOf (Event.wrote p c :: t) = postsOf t := rfl

@[simp]
theorem postsOf_cons_post (u : String) (pl : Json) (t : List Event) :
    postsOf (Event.post u pl :: t) = (u, pl) :: postsOf t := rfl

@[simp]
theorem writesOf_nil : writesOf [] = [] := rfl

@[simp]
theorem writesOf_cons_read (p : String) (t : List Event) :
    writesOf (Event.readAttempt p :: t) = writesOf t := rfl

@[simp]
theorem writesOf_cons_printed (m : String) (t : List Event) :
    writesOf (Event.printed m :: t) = writesOf t := rfl

@[simp]
theorem writesOf_cons_post (u : String) (pl : Json) (t : List Event) :
    writesOf (Event.post u pl :: t) = writesOf t := rfl

@[simp]
theorem writesOf_cons_wrote (p c : String) (t : List Event) :
    writesOf (Event.wrote p c :: t) = (p, c) :: writesOf t := rfl

@[simp]
theorem printedOf_nil : printedOf [] = [] := rfl

@[simp]
theorem printedOf_cons_read (p : String) (t : List Event) :
    printedOf (Event.readAttempt p :: t) = printedOf t := rfl

@[simp]
theorem printedOf_cons_printed (m : String) (t : List Event) :
    printedOf (Event.printed m :: t) = m :: printedOf t := rfl

@[simp]
theorem printedOf_cons_post (u : String) (pl : Json) (t : List Event) :
    printedOf (Event.post u pl :: t) = printedOf t := rfl

@[simp]
theorem printedOf_cons_wrote (p c : String) (t : List Event) :
    printedOf (Event.wrote p c :: t) = printedOf t := rfl

@[simp]
theorem readsOf_nil : readsOf [] = [] := rfl

@[simp]
theorem postsOf_append (a b : List Event) : postsOf (a ++ b) = postsOf a ++ postsOf b := by
  simp [postsOf]

@[simp]
theorem writesOf_append (a b : List Event) : writesOf (a ++ b) = writesOf a ++ writesOf b := by
  simp [writesOf]

@[simp]
theorem printedOf_append (a b : List Event) : printedOf (a ++ b) = printedOf a ++ printedOf b := by
  simp [printedOf]

/-- Whatever the response-handling stage does, it performs no POST. -/
theorem postsOf_handle_response (w : World) (o : Option String) (r : Json) :
    postsOf (handle_response w o r).1 = [] := by
  unfold handle_response
  repeat' split
  all_goals simp [postsOf]

/-- Assoc-list membership agrees with last-occurrence lookup. -/
theorem any_key_eq_isSome (fs : List (String × Json)) (k : String) :
    (fs.any (fun p => p.1 = k)) = (jlookup fs k).isSome := by
  induction fs with
  | nil => simp [jlookup]
  | cons p rest ih =>
    simp only [List.any_cons, ih, jlookup]
    cases hr : jlookup rest k with
    | some v => simp
    | none =>
      by_cases hk : p.1 = k <;> simp [hk]

/-- When the messages stage does not crash on a decode error, it returns
an ok message list and performs neither POST nor write. -/
theorem build_messages_no_decode (w : World) (pc : String) (input_file : Option String)
    (hinp : ∀ inp e, input_file = some inp → w.files inp ≠ ReadResult.decodeError e) :
    ∃ t2 msgs, build_messages w pc input_file = (t2, Except.ok msgs) ∧
      postsOf t2 = [] ∧ writesOf t2 = [] := by
  cases input_file with
  | none => exact ⟨[], [], rfl, rfl, rfl⟩
  | some inp =>
    cases hf : w.files inp with
    | ok c =>
      exact ⟨[.readAttempt inp],
        [Json.obj [("role", Json.str "user"), ("content", Json.str (pc ++ "\n" ++ c))]],
        by simp [build_messages, read_file_content, hf, pyStrOpt], rfl, rfl⟩
    | ioError e =>
      exact ⟨[.readAttempt inp, .printed ("Error reading file " ++ inp ++ ": " ++ e)],
        [Json.obj [("role", Json.str "user"), ("content", Json.str (pc ++ "\n" ++ "None"))]],
        by simp [build_messages, read_file_content, hf, pyStrOpt], rfl, rfl⟩
    | decodeError e => exact absurd hf (hinp inp e rfl)

/-- Characterisation of a whole run along the path that reaches the
network and parses the response: token present, prompt read non-empty,
messages built without crash, body parsed as JSON. -/
theorem mainRun_success (w : World) (model prompt_file : String)
    (input_file output_file : Option String) (tok p : String)
    (t2 : List Event) (msgs : List Json) (j : Json)
    (henv : w.env "HF_TOKEN" = some tok)
    (hp : w.files prompt_file = ReadResult.ok p) (hpne : p ≠ "")
    (hbm : build_messages w p input_file = (t2, Except.ok msgs))
    (hnet : w.net (Json.obj [("messages", Json.arr msgs), ("model", Json.str model)]) =
      NetResult.jsonBody j) :
    mainRun w model prompt_file input_file output_file =
      ([Event.readAttempt prompt_file] ++ t2 ++
        [Event.post API_URL (Json.obj [("messages", Json.arr msgs), ("model", Json.str model)])] ++
        (handle_response w output_file j).1,
       (handle_response w output_file j).2) := by
  simp [mainRun, henv, process_api_call, read_file_content, hp, pyTruthyOptStr, hpne,
    pyStrOpt, hbm, query, hnet]

/-- A response object with no choices key, or an empty choices list,
fails the guard on line 52. -/
theorem guardChoices_eq_false (fs : List (String × Json))
    (hch : jlookup fs "choices" = none ∨ jlookup fs "choices" = some (Json.arr [])) :
    guardChoices (Json.obj fs) = Except.ok false := by
  rcases hch with hch | hch <;>
    simp [guardChoices, pyContains, any_key_eq_isSome, hch, pyGetKey, Json.truthy]

/-- A non-empty choices list passes the guard on line 52. -/
theorem guardChoices_eq_true (fs : List (String × Json)) (c0 : Json) (cs : List Json)
    (hch : jlookup fs "choices" = some (Json.arr (c0 :: cs))) :
    guardChoices (Json.obj fs) = Except.ok true := by
  simp [guardChoices, pyContains, any_key_eq_isSome, hch, pyGetKey, Json.truthy]

/-- Extraction of the first choice through the nested subscripts of
line 53, in terms of the association lists of the response. -/
theorem extractContent_eq (fs g mm : List (String × Json)) (cs : List Json) (v : Json)
    (hch : jlookup fs "choices" = some (Json.arr (Json.obj g :: cs)))
    (hmsg : jlookup g "message" = some (Json.obj mm))
    (hct : jlookup mm "content" = some v) :
    extractContent (Json.obj fs) = Except.ok v := by
  simp [extractContent, pyGetKey, hch, pyGetIdx, hmsg, hct]

/-- Characterisation of a run whose response body does not parse as
JSON: the JSONDecodeError escapes right after the single POST. -/
theorem mainRun_nonjson (w : World) (model prompt_file : String)
    (input_file output_file : Option String) (tok p raw : String)
    (t2 : List Event) (msgs : List Json)
    (henv : w.env "HF_TOKEN" = some tok)
    (hp : w.files prompt_file = ReadResult.ok p) (hpne : p ≠ "")
    (hbm : build_messages w p input_file = (t2, Except.ok msgs))
    (hnet : w.net (Json.obj [("messages", Json.arr msgs), ("model", Json.str model)]) =
      NetResult.nonJsonBody raw) :
    mainRun w model prompt_file input_file output_file =
      ([Event.readAttempt prompt_file] ++ t2 ++
        [Event.post API_URL (Json.obj [("messages", Json.arr msgs), ("model", Json.str model)])],
       Except.error (PyExc.jsonDecodeError raw)) := by
  simp [mainRun, henv, process_api_call, read_file_content, hp, pyTruthyOptStr, hpne,
    pyStrOpt, hbm, query, hnet]

/-! ### Claims -/

/-- C6 (confirmed): when the bearer-credential environment variable
HF_TOKEN is absent, the run stops at the KeyError raised while building
the headers dict, with an empty trace: no file is read and no network
request is issued. -/
theorem C6_missing_token_fails_first (w : World) (model prompt_file : String)
    (input_file output_file : Option String)
    (henv : w.env "HF_TOKEN" = none) :
    mainRun w model prompt_file input_file output_file =
      ([], Except.error (PyExc.keyError "HF_TOKEN")) ∧
    readsOf (mainRun w model prompt_file input_file output_file).1 = [] ∧
    postsOf (mainRun w model prompt_file input_file output_file).1 = [] := by
  refine ⟨?_, ?_, ?_⟩ <;> simp [mainRun, henv, readsOf, postsOf]

/-- C6 witness: a concrete world with no HF_TOKEN. -/
theorem C6_missing_token_fails_first_witness :
    mainRun wNoTok "m" "p.txt" none none =
      ([], Except.error (PyExc.keyError "HF_TOKEN")) ∧
    readsOf (mainRun wNoTok "m" "p.txt" none none).1 = [] ∧
    postsOf (mainRun wNoTok "m" "p.txt" none none).1 = [] :=
  C6_missing_token_fails_first wNoTok "m" "p.txt" none none rfl

/-- C5 (code_bug): a response body that is not JSON makes
response.json() raise a JSONDecodeError that no handler catches: the
run ends in an uncaught exception instead of a printed diagnostic,
contradicting the propagation policy the spec states. -/
theorem C5_malformed_json_uncaught :
    mainRun wBadJson "m" "p.txt" none none =
      ([Event.readAttempt "p.txt",
        Event.post API_URL (Json.obj [("messages", Json.arr []), ("model", Json.str "m")])],
       Except.error (PyExc.jsonDecodeError "<html>503</html>")) := rfl

/-- C3 counterexample: with a readable but empty prompt file the run
aborts, yet prints nothing at all, while the claim demands a diagnostic
identifying the failing path. -/
theorem C3_counterexample :
    mainRun wEmptyPrompt "m" "p.txt" none none =
      ([Event.readAttempt "p.txt"], Except.ok ()) ∧
    printedOf (mainRun wEmptyPrompt "m" "p.txt" none none).1 = [] :=
  ⟨rfl, rfl⟩

/-- C3 (corrected): when the prompt read fails or yields empty content,
no network call is ever made; a diagnostic identifying the path is
printed exactly in the IOError case, while empty content aborts
silently and a decoding error escapes as an uncaught exception. -/
theorem C3_prompt_failure_aborts (w : World) (model prompt_file : String)
    (input_file output_file : Option String) (tok : String)
    (henv : w.env "HF_TOKEN" = some tok)
    (hbad : ∀ s, w.files prompt_file = ReadResult.ok s → s = "") :
    postsOf (mainRun w model prompt_file input_file output_file).1 = [] ∧
    (∀ e, w.files prompt_file = ReadResult.ioError e →
      Event.printed ("Error reading file " ++ prompt_file ++ ": " ++ e) ∈
        (mainRun w model prompt_file input_file output_file).1) ∧
    (∀ s, w.files prompt_file = ReadResult.ok s →
      printedOf (mainRun w model prompt_file input_file output_file).1 = []) ∧
    (∀ e, w.files prompt_file = ReadResult.decodeError e →
      (mainRun w model prompt_file input_file output_file).2 =
        Except.error (PyExc.unicodeDecodeError e)) := by
  refine ⟨?_, ?_, ?_, ?_⟩
  · cases hf : w.files prompt_file with
    | ok s =>
      have hs := hbad s hf
      subst hs
      simp [mainRun, henv, process_api_call, read_file_content, hf, pyTruthyOptStr, postsOf]
    | ioError e =>
      simp [mainRun, henv, process_api_call, read_file_content, hf, pyTruthyOptStr, postsOf]
    | decodeError e =>
      simp [mainRun, henv, process_api_call, read_file_content, hf, postsOf]
  · intro e he
    simp [mainRun, henv, process_api_call, read_file_content, he, pyTruthyOptStr]
  · intro s hs
    have hs0 := hbad s hs
    subst hs0
    simp [mainRun, henv, process_api_call, read_file_content, hs, pyTruthyOptStr, printedOf]
  · intro e he
    simp [mainRun, henv, process_api_call, read_file_content, he]

/-- C3 witness: the empty-prompt world instantiates the corrected
claim. -/
theorem C3_prompt_failure_aborts_witness :
    postsOf (mainRun wEmptyPrompt "m" "p.txt" none none).1 = [] :=
  (C3_prompt_failure_aborts wEmptyPrompt "m" "p.txt" none none "tok" rfl
    (fun _ h => (ReadResult.ok.inj h).symm)).1

/-- C4 counterexample: with a readable non-empty prompt and an
unreadable input file the run does not abort: it still performs the
POST, embedding the text None where the input contents should be. -/
theorem C4_counterexample :
    postsOf (mainRun wBadInput "m" "p.txt" (some "i.txt") none).1 =
      [(API_URL, Json.obj [("messages", Json.arr [Json.obj [("role", Json.str "user"),
        ("content", Json.str "P\nNone")]]), ("model", Json.str "m")])] := rfl

/-- C4 (corrected): when the input read fails with an IOError, a
diagnostic naming the path is printed but the network call is still
performed, with message content prompt, newline, then the text None;
when the input file is empty, the call is performed with content
prompt, newline. -/
theorem C4_input_failure_does_not_abort (w : World) (model prompt_file inp : String)
    (output_file : Option String) (tok p : String)
    (henv : w.env "HF_TOKEN" = some tok)
    (hp : w.files prompt_file = ReadResult.ok p) (hpne : p ≠ "") :
    (∀ e, w.files inp = ReadResult.ioError e →
      postsOf (mainRun w model prompt_file (some inp) output_file).1 =
        [(API_URL, Json.obj [("messages", Json.arr [Json.obj [("role", Json.str "user"),
          ("content", Json.str (p ++ "\n" ++ "None"))]]), ("model", Json.str model)])] ∧
      Event.printed ("Error reading file " ++ inp ++ ": " ++ e) ∈
        (mainRun w model prompt_file (some inp) output_file).1) ∧
    (w.files inp = ReadResult.ok "" →
      postsOf (mainRun w model prompt_file (some inp) output_file).1 =
        [(API_URL, Json.obj [("messages", Json.arr [Json.obj [("role", Json.str "user"),
          ("content", Json.str (p ++ "\n"))]]), ("model", Json.str model)])]) := by
  constructor
  · intro e he
    have hbm : build_messages w p (some inp) =
        ([.readAttempt inp, .printed ("Error reading file " ++ inp ++ ": " ++ e)],
         Except.ok [Json.obj [("role", Json.str "user"),
           ("content", Json.str (p ++ "\n" ++ "None"))]]) := by
      simp [build_messages, read_file_content, he, pyStrOpt]
    cases hn : w.net (Json.obj [("messages", Json.arr [Json.obj [("role", Json.str "user"),
        ("content", Json.str (p ++ "\n" ++ "None"))]]), ("model", Json.str model)]) with
    | jsonBody j =>
      rw [mainRun_success w model prompt_file (some inp) output_file tok p _ _ j
        henv hp hpne hbm hn]
      constructor
      · simp [postsOf_handle_response]
      · simp
    | nonJsonBody raw =>
      rw [mainRun_nonjson w model prompt_file (some inp) output_file tok p raw _ _
        henv hp hpne hbm hn]
      constructor
      · simp
      · simp
  · intro he
    have hbm : build_messages w p (some inp) =
        ([.readAttempt inp],
         Except.ok [Json.obj [("role", Json.str "user"),
           ("content", Json.str (p ++ "\n"))]]) := by
      simp [build_messages, read_file_content, he, pyStrOpt]
    cases hn : w.net (Json.obj [("messages", Json.arr [Json.obj [("role", Json.str "user"),
        ("content", Json.str (p ++ "\n"))]]), ("model", Json.str model)]) with
    | jsonBody j =>
      rw [mainRun_success w model prompt_file (some inp) output_file tok p _ _ j
        henv hp hpne hbm hn]
      simp [postsOf_handle_response]
    | nonJsonBody raw =>
      rw [mainRun_nonjson w model prompt_file (some inp) output_file tok p raw _ _
        henv hp hpne hbm hn]
      simp

/-- C4 witness: the unreadable-input world instantiates the corrected
claim. -/
theorem C4_input_failure_does_not_abort_witness :
    postsOf (mainRun wBadInput "m" "p.txt" (some "i.txt") none).1 =
      [(API_URL, Json.obj [("messages", Json.arr [Json.obj [("role", Json.str "user"),
        ("content", Json.str ("P" ++ "\n" ++ "None"))]]), ("model", Json.str "m")])] ∧
    Event.printed ("Error reading file " ++ "i.txt" ++ ": " ++ "Permission denied") ∈
      (mainRun wBadInput "m" "p.txt" (some "i.txt") none).1 :=
  (C4_input_failure_does_not_abort wBadInput "m" "p.txt" "i.txt" none "tok" "P"
    rfl rfl (by simp)).1 "Permission denied" rfl

/-- The messages stage performs no POST, whatever happens. -/
theorem postsOf_build_messages (w : World) (pc : String) (i : Option String) :
    postsOf (build_messages w pc i).1 = [] := by
  cases i with
  | none => rfl
  | some inp =>
    cases hf : w.files inp <;>
      simp [build_messages, read_file_content, hf]

/-- The messages stage writes no file, whatever happens. -/
theorem writesOf_build_messages (w : World) (pc : String) (i : Option String) :
    writesOf (build_messages w pc i).1 = [] := by
  cases i with
  | none => rfl
  | some inp =>
    cases hf : w.files inp <;>
      simp [build_messages, read_file_content, hf]

/-- Once the prompt is read non-empty and the messages stage returns,
the run performs exactly one POST, to API_URL, with the payload built
from its message list and the model identifier. -/
theorem postsOf_mainRun_of_bm (w : World) (model prompt_file : String)
    (input_file output_file : Option String) (tok p : String)
    (t2 : List Event) (msgs : List Json)
    (henv : w.env "HF_TOKEN" = some tok)
    (hp : w.files prompt_file = ReadResult.ok p) (hpne : p ≠ "")
    (hbm : build_messages w p input_file = (t2, Except.ok msgs)) :
    postsOf (mainRun w model prompt_file input_file output_file).1 =
      [(API_URL, Json.obj [("messages", Json.arr msgs), ("model", Json.str model)])] := by
  have hp2 : postsOf t2 = [] := by
    have h := postsOf_build_messages w p input_file
    rw [hbm] at h
    exact h
  cases hn : w.net (Json.obj [("messages", Json.arr msgs), ("model", Json.str model)]) with
  | jsonBody j =>
    rw [mainRun_success w model prompt_file input_file output_file tok p t2 msgs j
      henv hp hpne hbm hn]
    simp [hp2, postsOf_handle_response]
  | nonJsonBody raw =>
    rw [mainRun_nonjson w model prompt_file input_file output_file tok p raw t2 msgs
      henv hp hpne hbm hn]
    simp [hp2]

/-- C1 (confirmed): with both the prompt file and the input file
readable as UTF-8 text, any POST the run issues carries a one-element
message list with role user and content equal to the prompt contents, a
single newline, then the input contents, unmodified; and when the
prompt is non-empty such a POST does occur. -/
theorem C1_message_content_exact (w : World) (model prompt_file inp : String)
    (output_file : Option String) (tok p i : String)
    (henv : w.env "HF_TOKEN" = some tok)
    (hp : w.files prompt_file = ReadResult.ok p)
    (hi : w.files inp = ReadResult.ok i) :
    (∀ u pl, (u, pl) ∈ postsOf (mainRun w model prompt_file (some inp) output_file).1 →
      pl = Json.obj [("messages", Json.arr [Json.obj [("role", Json.str "user"),
        ("content", Json.str (p ++ "\n" ++ i))]]), ("model", Json.str model)]) ∧
    (p ≠ "" → postsOf (mainRun w model prompt_file (some inp) output_file).1 ≠ []) := by
  by_cases hpe : p = ""
  · subst hpe
    have hz : postsOf (mainRun w model prompt_file (some inp) output_file).1 = [] := by
      simp [mainRun, henv, process_api_call, read_file_content, hp, pyTruthyOptStr]
    constructor
    · intro u pl hm
      rw [hz] at hm
      simp at hm
    · intro hne
      exact absurd rfl hne
  · have hbm : build_messages w p (some inp) =
        ([.readAttempt inp], Except.ok [Json.obj [("role", Json.str "user"),
          ("content", Json.str (p ++ "\n" ++ i))]]) := by
      simp [build_messages, read_file_content, hi, pyStrOpt]
    have hps := postsOf_mainRun_of_bm w model prompt_file (some inp) output_file tok p _ _
      henv hp hpe hbm
    constructor
    · intro u pl hm
      rw [hps] at hm
      simp at hm
      exact hm.2
    · intro _
      rw [hps]
      simp

/-- C1 witness: the happy world issues a POST. -/
theorem C1_message_content_exact_witness :
    postsOf (mainRun wOk "m" "p.txt" (some "i.txt") (some "o.txt")).1 ≠ [] :=
  (C1_message_content_exact wOk "m" "p.txt" "i.txt" (some "o.txt") "tok"
    "Summarize:" "The quick brown fox." rfl rfl rfl).2 (by decide)

/-- C10 (confirmed): with a readable non-empty prompt and no input
file, the request is still issued and its messages field is the empty
list. -/
theorem C10_no_input_sends_empty_messages (w : World) (model prompt_file : String)
    (output_file : Option String) (tok p : String)
    (henv : w.env "HF_TOKEN" = some tok)
    (hp : w.files prompt_file = ReadResult.ok p) (hpne : p ≠ "") :
    postsOf (mainRun w model prompt_file none output_file).1 =
      [(API_URL, Json.obj [("messages", Json.arr []), ("model", Json.str model)])] :=
  postsOf_mainRun_of_bm w model prompt_file none output_file tok p [] []
    henv hp hpne rfl

/-- C10 witness: a concrete no-input run. -/
theorem C10_no_input_sends_empty_messages_witness :
    postsOf (mainRun wNoChoices "m" "p.txt" none none).1 =
      [(API_URL, Json.obj [("messages", Json.arr []), ("model", Json.str "m")])] :=
  C10_no_input_sends_empty_messages wNoChoices "m" "p.txt" none "tok" "P"
    rfl rfl (by decide)

/-- C7 (confirmed): when the parsed response is an object whose choices
entry is missing or the empty list, the raw response rendering is
printed as a diagnostic, no file write occurs, exactly the one POST was
made, and the run ends normally. -/
theorem C7_empty_choices_prints_raw (w : World) (model prompt_file : String)
    (input_file output_file : Option String) (tok p : String)
    (fs : List (String × Json))
    (henv : w.env "HF_TOKEN" = some tok)
    (hp : w.files prompt_file = ReadResult.ok p) (hpne : p ≠ "")
    (hinp : ∀ inp e, input_file = some inp → w.files inp ≠ ReadResult.decodeError e)
    (hnet : ∀ pl, w.net pl = NetResult.jsonBody (Json.obj fs))
    (hch : jlookup fs "choices" = none ∨ jlookup fs "choices" = some (Json.arr [])) :
    Event.printed ("Error or empty response from API: " ++ Json.render (Json.obj fs)) ∈
      (mainRun w model prompt_file input_file output_file).1 ∧
    writesOf (mainRun w model prompt_file input_file output_file).1 = [] ∧
    (postsOf (mainRun w model prompt_file input_file output_file).1).length = 1 ∧
    (mainRun w model prompt_file input_file output_file).2 = Except.ok () := by
  obtain ⟨t2, msgs, hbm, hp2, hw2⟩ := build_messages_no_decode w p input_file hinp
  rw [mainRun_success w model prompt_file input_file output_file tok p t2 msgs _
    henv hp hpne hbm (hnet _)]
  have hg := guardChoices_eq_false fs hch
  refine ⟨?_, ?_, ?_, ?_⟩ <;> simp [handle_response, hg, hp2, hw2]

/-- C7 witness: a concrete response with no choices entry. -/
theorem C7_empty_choices_prints_raw_witness :
    Event.printed ("Error or empty response from API: " ++
        Json.render (Json.obj [("error", Json.str "overloaded")])) ∈
      (mainRun wNoChoices "m" "p.txt" none none).1 ∧
    writesOf (mainRun wNoChoices "m" "p.txt" none none).1 = [] ∧
    (postsOf (mainRun wNoChoices "m" "p.txt" none none).1).length = 1 ∧
    (mainRun wNoChoices "m" "p.txt" none none).2 = Except.ok () :=
  C7_empty_choices_prints_raw wNoChoices "m" "p.txt" none none "tok" "P"
    [("error", Json.str "overloaded")] rfl rfl (by decide)
    (fun _ _ h => Option.noConfusion h) (fun _ => rfl) (Or.inl rfl)

/-- C2 (confirmed): when the response carries a non-empty choices list
whose first entry nests a message content string, and an output path
was supplied and is writable, the run writes exactly that string to
exactly that path, prints the destination report, and ends normally. -/
theorem C2_success_writes_output (w : World) (model prompt_file : String)
    (input_file : Option String) (out_path tok p s : String)
    (fs g mm : List (String × Json)) (cs : List Json)
    (henv : w.env "HF_TOKEN" = some tok)
    (hp : w.files prompt_file = ReadResult.ok p) (hpne : p ≠ "")
    (hinp : ∀ inp e, input_file = some inp → w.files inp ≠ ReadResult.decodeError e)
    (hnet : ∀ pl, w.net pl = NetResult.jsonBody (Json.obj fs))
    (hch : jlookup fs "choices" = some (Json.arr (Json.obj g :: cs)))
    (hmsg : jlookup g "message" = some (Json.obj mm))
    (hct : jlookup mm "content" = some (Json.str s))
    (hwr : w.writeRes out_path = none) :
    writesOf (mainRun w model prompt_file input_file (some out_path)).1 = [(out_path, s)] ∧
    Event.printed ("API response saved to " ++ out_path) ∈
      (mainRun w model prompt_file input_file (some out_path)).1 ∧
    (mainRun w model prompt_file input_file (some out_path)).2 = Except.ok () := by
  obtain ⟨t2, msgs, hbm, hp2, hw2⟩ := build_messages_no_decode w p input_file hinp
  rw [mainRun_success w model prompt_file input_file (some out_path) tok p t2 msgs _
    henv hp hpne hbm (hnet _)]
  have hg := guardChoices_eq_true fs (Json.obj g) cs hch
  have he := extractContent_eq fs g mm cs (Json.str s) hch hmsg hct
  refine ⟨?_, ?_, ?_⟩ <;> simp [handle_response, hg, he, hwr, hw2]

/-- C2 witness: the happy world writes the extracted content. -/
theorem C2_success_writes_output_witness :
    writesOf (mainRun wOk "m" "p.txt" none (some "o.txt")).1 = [("o.txt", "A fox runs.")] ∧
    Event.printed ("API response saved to " ++ "o.txt") ∈
      (mainRun wOk "m" "p.txt" none (some "o.txt")).1 ∧
    (mainRun wOk "m" "p.txt" none (some "o.txt")).2 = Except.ok () :=
  C2_success_writes_output wOk "m" "p.txt" none "o.txt" "tok" "Summarize:" "A fox runs."
    [("choices", Json.arr [Json.obj [("message",
      Json.obj [("content", Json.str "A fox runs.")])]])]
    [("message", Json.obj [("content", Json.str "A fox runs.")])]
    [("content", Json.str "A fox runs.")] []
    rfl rfl (by decide) (fun _ _ h => Option.noConfusion h) (fun _ => rfl) rfl rfl rfl rfl

/-- C9 (confirmed): when the result was extracted but writing the
output file fails with an IOError, a diagnostic naming the output path
is printed, nothing is written, and the run continues to a normal
termination. -/
theorem C9_write_failure_not_fatal (w : World) (model prompt_file : String)
    (input_file : Option String) (out_path tok p s e : String)
    (fs g mm : List (String × Json)) (cs : List Json)
    (henv : w.env "HF_TOKEN" = some tok)
    (hp : w.files prompt_file = ReadResult.ok p) (hpne : p ≠ "")
    (hinp : ∀ inp e2, input_file = some inp → w.files inp ≠ ReadResult.decodeError e2)
    (hnet : ∀ pl, w.net pl = NetResult.jsonBody (Json.obj fs))
    (hch : jlookup fs "choices" = some (Json.arr (Json.obj g :: cs)))
    (hmsg : jlookup g "message" = some (Json.obj mm))
    (hct : jlookup mm "content" = some (Json.str s))
    (hwr : w.writeRes out_path = some e) :
    Event.printed ("Error writing to file " ++ out_path ++ ": " ++ e) ∈
      (mainRun w model prompt_file input_file (some out_path)).1 ∧
    writesOf (mainRun w model prompt_file input_file (some out_path)).1 = [] ∧
    (mainRun w model prompt_file input_file (some out_path)).2 = Except.ok () := by
  obtain ⟨t2, msgs, hbm, hp2, hw2⟩ := build_messages_no_decode w p input_file hinp
  rw [mainRun_success w model prompt_file input_file (some out_path) tok p t2 msgs _
    henv hp hpne hbm (hnet _)]
  have hg := guardChoices_eq_true fs (Json.obj g) cs hch
  have he := extractContent_eq fs g mm cs (Json.str s) hch hmsg hct
  refine ⟨?_, ?_, ?_⟩ <;> simp [handle_response, hg, he, hwr, hw2]

/-- C9 witness: a world whose output path is unwritable. -/
theorem C9_write_failure_not_fatal_witness :
    Event.printed ("Error writing to file " ++ "o.txt" ++ ": " ++ "Permission denied") ∈
      (mainRun wWriteFail "m" "p.txt" none (some "o.txt")).1 ∧
    writesOf (mainRun wWriteFail "m" "p.txt" none (some "o.txt")).1 = [] ∧
    (mainRun wWriteFail "m" "p.txt" none (some "o.txt")).2 = Except.ok () :=
  C9_write_failure_not_fatal wWriteFail "m" "p.txt" none "o.txt" "tok" "P" "A fox runs."
    "Permission denied"
    [("choices", Json.arr [Json.obj [("message",
      Json.obj [("content", Json.str "A fox runs.")])]])]
    [("message", Json.obj [("content", Json.str "A fox runs.")])]
    [("content", Json.str "A fox runs.")] []
    rfl rfl (by decide) (fun _ _ h => Option.noConfusion h) (fun _ => rfl) rfl rfl rfl rfl

/-- C8 (confirmed): every run makes at most one POST, so a run that
reaches the network step makes exactly one; any POST made goes to the
fixed endpoint API_URL with a JSON body assembled from exactly the
constructed message list and the model identifier (this variant has no
maximum-token option, so the body never carries one); no retry ever
occurs. -/
theorem C8_single_post_fixed_endpoint (w : World) (model prompt_file : String)
    (input_file output_file : Option String) :
    (postsOf (mainRun w model prompt_file input_file output_file).1).length ≤ 1 ∧
    (postsOf (mainRun w model prompt_file input_file output_file).1 ≠ [] →
      (postsOf (mainRun w model prompt_file input_file output_file).1).length = 1) ∧
    ∀ u pl, (u, pl) ∈ postsOf (mainRun w model prompt_file input_file output_file).1 →
      u = API_URL ∧ ∃ msgs,
        pl = Json.obj [("messages", Json.arr msgs), ("model", Json.str model)] := by
  cases henv : w.env "HF_TOKEN" with
  | none => refine ⟨?_, ?_, ?_⟩ <;> simp [mainRun, henv]
  | some tok =>
    cases hf : w.files prompt_file with
    | ioError e =>
      refine ⟨?_, ?_, ?_⟩ <;>
        simp [mainRun, henv, process_api_call, read_file_content, hf, pyTruthyOptStr]
    | decodeError e =>
      refine ⟨?_, ?_, ?_⟩ <;>
        simp [mainRun, henv, process_api_call, read_file_content, hf]
    | ok p =>
      by_cases hpe : p = ""
      · subst hpe
        refine ⟨?_, ?_, ?_⟩ <;>
          simp [mainRun, henv, process_api_call, read_file_content, hf, pyTruthyOptStr]
      · cases hbmres : build_messages w p input_file with
        | mk t2 r2 =>
          cases r2 with
          | error e =>
            have h2 : postsOf t2 = [] := by
              have h := postsOf_build_messages w p input_file
              rw [hbmres] at h
              exact h
            refine ⟨?_, ?_, ?_⟩ <;>
              simp [mainRun, henv, process_api_call, read_file_content, hf,
                pyTruthyOptStr, hpe, pyStrOpt, hbmres, h2]
          | ok msgs =>
            have hps := postsOf_mainRun_of_bm w model prompt_file input_file output_file
              tok p t2 msgs henv hf hpe hbmres
            refine ⟨?_, ?_, ?_⟩
            · rw [hps]
              simp
            · rw [hps]
              simp
            · intro u pl hm
              rw [hps] at hm
              simp at hm
              exact ⟨hm.1, msgs, hm.2⟩

/-- C8 witness: the one POST of a concrete run matches the shape. -/
theorem C8_single_post_fixed_endpoint_witness :
    API_URL = API_URL ∧ ∃ msgs,
      Json.obj [("messages", Json.arr []), ("model", Json.str "m")] =
        Json.obj [("messages", Json.arr msgs), ("model", Json.str "m")] :=
  (C8_single_post_fixed_endpoint wNoChoices "m" "p.txt" none none).2.2 API_URL
    (Json.obj [("messages", Json.arr []), ("model", Json.str "m")])
    (List.Mem.head _)

end HF
